import Mathlib

/-!
Verification of the mcp-obsidian tool-dispatch layer (`src/mcp_obsidian/server.py`).

Each MCP tool handler is embedded as a pure Lean function.  A handler's
interaction with the vault REST client (`obsidian.Obsidian`) is made explicit:
the handler returns the list of client calls it issues (in order) together
with either the text it returns or the message of the exception it raises.
The client's responses are passed in as extra parameters (oracles), since the
client only forwards HTTP responses.

Python values that handlers inspect dynamically (`isinstance` checks,
truthiness tests) are embedded as `PyVal`; parameters the handlers treat as
plain strings are embedded as `String`.
-/

namespace McpObsidian

/-- A JSON value, as produced by decoding the vault's HTTP responses and fed
to `json.dumps`. -/
inductive Json where
  | null
  | bool (b : Bool)
  | num (n : Int)
  | str (s : String)
  | arr (elems : List Json)
  | obj (fields : List (String × Json))

/-- Escaping of one character inside a JSON string literal, as `json.dumps`
does it (common escapes; exotic control characters do not occur in the
inputs considered here). -/
def jsonEscapeChar (c : Char) : String :=
  if c = '\\' then "\\\\"
  else if c = '"' then "\\\""
  else if c = '\n' then "\\n"
  else if c = '\t' then "\\t"
  else if c = '\r' then "\\r"
  else String.singleton c

/-- Escaping of a string body for a JSON string literal. -/
def jsonEscape (s : String) : String :=
  String.join (s.toList.map jsonEscapeChar)

/-- `2*k` spaces: the indentation `json.dumps(..., indent=2)` puts at nesting
depth `k`. -/
def jsonIndent (k : Nat) : String :=
  String.join (List.replicate k "  ")

mutual

/-- `json.dumps(j, indent=2)` where `j` sits at nesting depth `k` (its
closing bracket is indented `k` levels). -/
def jsonDumpsAux : Json → Nat → String
  | Json.null, _ => "null"
  | Json.bool true, _ => "true"
  | Json.bool false, _ => "false"
  | Json.num n, _ => toString n
  | Json.str s, _ => "\"" ++ jsonEscape s ++ "\""
  | Json.arr [], _ => "[]"
  | Json.arr (x :: xs), k =>
      "[\n" ++ jsonIndent (k + 1) ++ jsonDumpsAux x (k + 1) ++
        jsonDumpsList xs (k + 1) ++ "\n" ++ jsonIndent k ++ "]"
  | Json.obj [], _ => "\x7b\x7d"
  | Json.obj (p :: ps), k =>
      "\x7b\n" ++ jsonIndent (k + 1) ++ "\"" ++ jsonEscape p.1 ++ "\": " ++
        jsonDumpsAux p.2 (k + 1) ++ jsonDumpsObj ps (k + 1) ++
        "\n" ++ jsonIndent k ++ "\x7d"

/-- Remaining elements of a JSON array at depth `k`, each preceded by the
item separator. -/
def jsonDumpsList : List Json → Nat → String
  | [], _ => ""
  | x :: xs, k => ",\n" ++ jsonIndent k ++ jsonDumpsAux x k ++ jsonDumpsList xs k

/-- Remaining fields of a JSON object at depth `k`, each preceded by the
item separator. -/
def jsonDumpsObj : List (String × Json) → Nat → String
  | [], _ => ""
  | p :: ps, k =>
      ",\n" ++ jsonIndent k ++ "\"" ++ jsonEscape p.1 ++ "\": " ++
        jsonDumpsAux p.2 k ++ jsonDumpsObj ps k

end

/-- `json.dumps(j, indent=2)`. -/
def jsonDumps (j : Json) : String := jsonDumpsAux j 0

/-- A dynamically-typed Python value, as far as the handlers inspect one:
`None`, a bool, an int or a string. -/
inductive PyVal where
  | none
  | bool (b : Bool)
  | int (n : Int)
  | str (s : String)
deriving DecidableEq

/-- Python truthiness (`if not v`): `None`, `False`, `0` and `""` are falsy. -/
def PyVal.truthy : PyVal → Bool
  | PyVal.none => false
  | PyVal.bool b => b
  | PyVal.int n => n != 0
  | PyVal.str s => s != ""

/-- `isinstance(v, int)`.  In Python `bool` is a subclass of `int`, so
booleans count. -/
def PyVal.isInstInt : PyVal → Bool
  | PyVal.bool _ => true
  | PyVal.int _ => true
  | _ => false

/-- `isinstance(v, bool)`. -/
def PyVal.isInstBool : PyVal → Bool
  | PyVal.bool _ => true
  | _ => false

/-- The integer value of a `PyVal` that passed `isinstance(v, int)`
(`True` is `1`, `False` is `0`); unused on other values. -/
def PyVal.toInt : PyVal → Int
  | PyVal.bool b => if b then 1 else 0
  | PyVal.int n => n
  | _ => 0

/-- `str(v)`, as an f-string interpolates it into an error message. -/
def PyVal.pyStr : PyVal → String
  | PyVal.none => "None"
  | PyVal.bool true => "True"
  | PyVal.bool false => "False"
  | PyVal.int n => toString n
  | PyVal.str s => s

/-- One invocation of a method of the vault REST client
(`obsidian.Obsidian`), with the arguments the handler passed. -/
inductive ClientCall where
  | list_files_in_vault
  | list_files_in_dir (dirpath : String)
  | get_file_contents (filepath : String)
  | search (query : String) (context_length : PyVal)
  | append_content (filepath : String) (content : String)
  | patch_content (filepath : String) (operation : String) (target_type : String)
      (target : String) (content : String)
  | put_content (filepath : String) (content : String)
  | delete_file (filepath : String)
  | search_json (query : Json)
  | get_batch_file_contents (filepaths : List String)
  | get_periodic_note (period : String) (type : String)
  | get_recent_periodic_notes (period : String) (limit : PyVal) (include_content : PyVal)
  | get_recent_changes (limit : PyVal) (days : PyVal)

/-- Outcome of one tool invocation: the client calls issued, in order, and
either the text returned to the MCP caller or the message of the raised
exception. -/
abbrev ToolResult := List ClientCall × Except String String

/-- `obsidian_list_files_in_vault`: lists the vault root.  `files` is the
decoded client response. -/
def obsidian_list_files_in_vault (files : Json) : ToolResult :=
  ([ClientCall.list_files_in_vault], Except.ok (jsonDumps files))

/-- `obsidian_list_files_in_dir`. -/
def obsidian_list_files_in_dir (dirpath : String) (files : Json) : ToolResult :=
  ([ClientCall.list_files_in_dir dirpath], Except.ok (jsonDumps files))

/-- `obsidian_get_file_contents`.  The handler passes the decoded content
through `json.dumps(content, indent=2)`. -/
def obsidian_get_file_contents (filepath : String) (content : Json) : ToolResult :=
  ([ClientCall.get_file_contents filepath], Except.ok (jsonDumps content))

/-- The `"match"` sub-dictionary of a raw search match, with its two
optional fields (`match.get("start", 0)` / `match.get("end", 0)`). -/
structure RawMatchPos where
  mstart : Option Int
  mend : Option Int
deriving DecidableEq

/-- A raw match entry of a search result, with its optional fields
(`match.get("context", "")` / `match.get("match", dict())`). -/
structure RawMatch where
  context : Option String
  mtch : Option RawMatchPos
deriving DecidableEq

/-- A raw search result dictionary as returned by `api.search`, with the
three optional fields the handler reads. -/
structure RawResult where
  filename : Option String
  score : Option Int
  mtches : Option (List RawMatch)
deriving DecidableEq

/-- The inner loop of `obsidian_simple_search`: builds `formatted_matches`
by appending one formatted entry per raw match. -/
def formatMatchesLoop (raw_matches : List RawMatch) : List Json :=
  raw_matches.foldl (fun formatted_matches m =>
    let context := m.context.getD ""
    let match_pos := m.mtch.getD { mstart := Option.none, mend := Option.none }
    let s := match_pos.mstart.getD 0
    let e := match_pos.mend.getD 0
    formatted_matches ++
      [Json.obj [("context", Json.str context),
        ("match_position", Json.obj [("start", Json.num s), ("end", Json.num e)])]]) []

/-- The outer loop of `obsidian_simple_search`: builds `formatted_results`
by appending one formatted entry per raw result. -/
def formatResultsLoop (results : List RawResult) : List Json :=
  results.foldl (fun formatted_results result =>
    let formatted_matches := formatMatchesLoop (result.mtches.getD [])
    formatted_results ++
      [Json.obj [("filename", Json.str (result.filename.getD "")),
        ("score", Json.num (result.score.getD 0)),
        ("matches", Json.arr formatted_matches)]]) []

/-- `obsidian_simple_search`.  `results` is the decoded client response to
`api.search(query, context_length)`. -/
def obsidian_simple_search (query : String) (context_length : PyVal)
    (results : List RawResult) : ToolResult :=
  ([ClientCall.search query context_length],
   Except.ok (jsonDumps (Json.arr (formatResultsLoop results))))

/-- `obsidian_append_content`. -/
def obsidian_append_content (filepath : String) (content : String) : ToolResult :=
  ([ClientCall.append_content filepath content],
   Except.ok ("Successfully appended content to " ++ filepath))

/-- `obsidian_patch_content`.  The handler forwards all five arguments to
the client without validating any of them. -/
def obsidian_patch_content (filepath : String) (operation : String)
    (target_type : String) (target : String) (content : String) : ToolResult :=
  ([ClientCall.patch_content filepath operation target_type target content],
   Except.ok ("Successfully patched content in " ++ filepath))

/-- `obsidian_put_content`. -/
def obsidian_put_content (filepath : String) (content : String) : ToolResult :=
  ([ClientCall.put_content filepath content],
   Except.ok ("Successfully uploaded content to " ++ filepath))

/-- `obsidian_delete_file`: `if not confirm: raise RuntimeError(...)`,
otherwise one `api.delete_file(filepath)` call. -/
def obsidian_delete_file (filepath : String) (confirm : PyVal) : ToolResult :=
  if confirm.truthy = false then
    ([], Except.error "confirm must be set to true to delete a file")
  else
    ([ClientCall.delete_file filepath],
     Except.ok ("Successfully deleted " ++ filepath))

/-- `obsidian_complex_search`.  `results` is the decoded client response to
`api.search_json(query)`. -/
def obsidian_complex_search (query : Json) (results : Json) : ToolResult :=
  ([ClientCall.search_json query], Except.ok (jsonDumps results))

/-- Modelled from the spec: the vault client's `get_batch_file_contents`
(module `obsidian`, whose source is not in the tree).  Per the spec it
returns a single concatenated text blob, each file's content preceded by a
header line identifying its path, and a missing file produces an inline
error marker within the blob rather than aborting the whole batch.
`vault` maps a path to its content, or to nothing when the file is missing. -/
def get_batch_file_contents (vault : String → Option String) :
    List String → String
  | [] => ""
  | filepath :: rest =>
      filepath ++ ":\n\n" ++
        (match vault filepath with
         | some content => content
         | Option.none => "Error reading file: " ++ filepath) ++
        "\n\n---\n\n" ++ get_batch_file_contents vault rest

/-- `obsidian_batch_get_file_contents`: forwards the list of paths to the
client and returns the blob unchanged. -/
def obsidian_batch_get_file_contents (vault : String → Option String)
    (filepaths : List String) : ToolResult :=
  ([ClientCall.get_batch_file_contents filepaths],
   Except.ok (get_batch_file_contents vault filepaths))

/-- The valid periods list shared by the periodic-note handlers. -/
def valid_periods : List String :=
  ["daily", "weekly", "monthly", "quarterly", "yearly"]

/-- The valid types list of `obsidian_get_periodic_note`. -/
def valid_types : List String := ["content", "metadata"]

/-- `obsidian_get_periodic_note`: validates `period` and `type` against
their fixed sets, then returns the client's content as raw text. -/
def obsidian_get_periodic_note (period : String) (type : String)
    (content : String) : ToolResult :=
  if period ∉ valid_periods then
    ([], Except.error ("Invalid period: " ++ period ++ ". Must be one of: " ++
      String.intercalate ", " valid_periods))
  else if type ∉ valid_types then
    ([], Except.error ("Invalid type: " ++ type ++ ". Must be one of: " ++
      String.intercalate ", " valid_types))
  else
    ([ClientCall.get_periodic_note period type], Except.ok content)

/-- `obsidian_get_recent_periodic_notes`: validates `period`, `limit` and
`include_content`, then serializes the client response to indented JSON. -/
def obsidian_get_recent_periodic_notes (period : String) (limit : PyVal)
    (include_content : PyVal) (results : Json) : ToolResult :=
  if period ∉ valid_periods then
    ([], Except.error ("Invalid period: " ++ period ++ ". Must be one of: " ++
      String.intercalate ", " valid_periods))
  else if limit.isInstInt = false ∨ limit.toInt < 1 then
    ([], Except.error ("Invalid limit: " ++ limit.pyStr ++
      ". Must be a positive integer"))
  else if include_content.isInstBool = false then
    ([], Except.error ("Invalid include_content: " ++ include_content.pyStr ++
      ". Must be a boolean"))
  else
    ([ClientCall.get_recent_periodic_notes period limit include_content],
     Except.ok (jsonDumps results))

/-- `obsidian_get_recent_changes`: validates `limit` and `days`, then
serializes the client response to indented JSON. -/
def obsidian_get_recent_changes (limit : PyVal) (days : PyVal)
    (results : Json) : ToolResult :=
  if limit.isInstInt = false ∨ limit.toInt < 1 then
    ([], Except.error ("Invalid limit: " ++ limit.pyStr ++
      ". Must be a positive integer"))
  else if days.isInstInt = false ∨ days.toInt < 1 then
    ([], Except.error ("Invalid days: " ++ days.pyStr ++
      ". Must be a positive integer"))
  else
    ([ClientCall.get_recent_changes limit days],
     Except.ok (jsonDumps results))

/-- The process-wide configuration built at module load. -/
structure StartupConfig where
  api_key : String
  obsidian_host : String
deriving DecidableEq

/-- Module-load logic of `server.py`: read `OBSIDIAN_API_KEY` (required,
must be truthy) and `OBSIDIAN_HOST` (defaulting to `"127.0.0.1"`); raise
`ValueError` when the key is absent or empty.  `env` is `os.getenv`, `cwd`
is `os.getcwd()`. -/
def serverStartup (env : String → Option String) (cwd : String) :
    Except String StartupConfig :=
  let api_key := env "OBSIDIAN_API_KEY"
  let obsidian_host := (env "OBSIDIAN_HOST").getD "127.0.0.1"
  if api_key.getD "" = "" then
    Except.error ("OBSIDIAN_API_KEY environment variable required. " ++
      "Working directory: " ++ cwd)
  else
    Except.ok { api_key := api_key.getD "", obsidian_host := obsidian_host }

/-- The `start` field required by the search-result claim: taken from the
raw match's position record, `0` when the record or the field is absent. -/
def specMatchStart (m : RawMatch) : Int :=
  match m.mtch with
  | some mp => mp.mstart.getD 0
  | Option.none => 0

/-- The `end` field required by the search-result claim: taken from the
raw match's position record, `0` when the record or the field is absent. -/
def specMatchEnd (m : RawMatch) : Int :=
  match m.mtch with
  | some mp => mp.mend.getD 0
  | Option.none => 0

/-- The shape the search-result claim requires of one formatted match:
exactly `context` and `match_position.start` / `match_position.end`, with
the raw fields where present and defaults where absent. -/
def specFormatMatch (m : RawMatch) : Json :=
  Json.obj [("context", Json.str (m.context.getD "")),
    ("match_position", Json.obj [("start", Json.num (specMatchStart m)),
      ("end", Json.num (specMatchEnd m))])]

/-- The shape the search-result claim requires of one formatted result:
exactly `filename`, `score` and `matches`, with defaults for absent fields
and the matches formatted in order by `specFormatMatch`. -/
def specFormatResult (r : RawResult) : Json :=
  Json.obj [("filename", Json.str (r.filename.getD "")),
    ("score", Json.num (r.score.getD 0)),
    ("matches", Json.arr ((r.mtches.getD []).map specFormatMatch))]

/- ------------------------------------------------------------------ -/
/- Theorems -/
/- ------------------------------------------------------------------ -/

/-- Appending one image per element to an accumulator is mapping. -/
theorem foldl_push_eq_map {α β : Type} (f : α → β) :
    ∀ (l : List α) (acc : List β),
      l.foldl (fun acc x => acc ++ [f x]) acc = acc ++ l.map f := by
  intro l
  induction l with
  | nil => intro acc; simp
  | cons x xs ih => intro acc; simp [List.foldl_cons, ih]

/-- The handler's `match.get` chain computes the claim's per-match record. -/
theorem formatMatchesLoop_eq (l : List RawMatch) :
    formatMatchesLoop l = l.map specFormatMatch := by
  have hbody : ∀ m : RawMatch,
      (Json.obj [("context", Json.str (m.context.getD "")),
        ("match_position", Json.obj
          [("start", Json.num ((m.mtch.getD
              { mstart := Option.none, mend := Option.none }).mstart.getD 0)),
           ("end", Json.num ((m.mtch.getD
              { mstart := Option.none, mend := Option.none }).mend.getD 0))])])
        = specFormatMatch m := by
    intro m
    cases h : m.mtch <;>
      simp [specFormatMatch, specMatchStart, specMatchEnd, h]
  unfold formatMatchesLoop
  simp only [hbody]
  exact (foldl_push_eq_map specFormatMatch l []).trans (by simp)

/-- The handler's result loop computes the claim's per-result record list. -/
theorem formatResultsLoop_eq (l : List RawResult) :
    formatResultsLoop l = l.map specFormatResult := by
  unfold formatResultsLoop
  simp only [formatMatchesLoop_eq]
  exact (foldl_push_eq_map specFormatResult l []).trans (by simp)

/-- Claim C5: for every sequence of raw search results returned by the
client, `obsidian_simple_search` issues exactly the one search call and
serializes (to indented JSON) a sequence with one element per raw result,
in order, each of the exact shape
`(filename, score, matches = [(context, match_position = (start, end)), …])`
with the raw fields where present and the defaults `""` / `0` where
absent, match order preserved. -/
theorem c5_simple_search_shape (query : String) (context_length : PyVal)
    (results : List RawResult) :
    obsidian_simple_search query context_length results =
      ([ClientCall.search query context_length],
       Except.ok (jsonDumps (Json.arr (results.map specFormatResult)))) := by
  simp [obsidian_simple_search, formatResultsLoop_eq]

/-- Claim C1: with a falsy `confirm`, `obsidian_delete_file` raises and
issues no client call; with `confirm = true` it issues exactly the one
`delete_file` call. -/
theorem c1_delete_confirm_gate (filepath : String) (confirm : PyVal) :
    (confirm.truthy = false →
      obsidian_delete_file filepath confirm =
        ([], Except.error "confirm must be set to true to delete a file")) ∧
    (confirm = PyVal.bool true →
      obsidian_delete_file filepath confirm =
        ([ClientCall.delete_file filepath],
         Except.ok ("Successfully deleted " ++ filepath))) := by
  constructor
  · intro h
    simp [obsidian_delete_file, h]
  · intro h
    subst h
    simp [obsidian_delete_file, PyVal.truthy]

/-- Claim C1, instantiated: the gate at `confirm = false` and at
`confirm = true` on a concrete path. -/
theorem c1_delete_confirm_gate_witness :
    obsidian_delete_file "notes/todo.md" (PyVal.bool false) =
      ([], Except.error "confirm must be set to true to delete a file") ∧
    obsidian_delete_file "notes/todo.md" (PyVal.bool true) =
      ([ClientCall.delete_file "notes/todo.md"],
       Except.ok "Successfully deleted notes/todo.md") :=
  ⟨(c1_delete_confirm_gate "notes/todo.md" (PyVal.bool false)).1 rfl,
   (c1_delete_confirm_gate "notes/todo.md" (PyVal.bool true)).2 rfl⟩

/-- Claim C2 counterexample: `obsidian_patch_content` performs no enum
validation — with the invalid operation `"bogus"` it raises no error and
issues the client call anyway. -/
theorem c2_patch_content_counterexample :
    obsidian_patch_content "note.md" "bogus" "heading" "Title" "text" =
      ([ClientCall.patch_content "note.md" "bogus" "heading" "Title" "text"],
       Except.ok "Successfully patched content in note.md") := rfl

/-- Claim C2 (amended): the enum validation holds for
`obsidian_get_periodic_note` (`period`, `type`) and
`obsidian_get_recent_periodic_notes` (`period`) — an invalid value raises
an error naming the value and the valid set, with no client call — but
`obsidian_patch_content` validates neither `operation` nor `target_type`
and always issues its client call. -/
theorem c2_enum_validation (period type filepath operation target_type
    target content note : String) (limit include_content : PyVal) (resp : Json) :
    (period ∉ valid_periods →
      obsidian_get_periodic_note period type note =
        ([], Except.error ("Invalid period: " ++ period ++
          ". Must be one of: " ++ String.intercalate ", " valid_periods))) ∧
    (period ∈ valid_periods → type ∉ valid_types →
      obsidian_get_periodic_note period type note =
        ([], Except.error ("Invalid type: " ++ type ++
          ". Must be one of: " ++ String.intercalate ", " valid_types))) ∧
    (period ∉ valid_periods →
      obsidian_get_recent_periodic_notes period limit include_content resp =
        ([], Except.error ("Invalid period: " ++ period ++
          ". Must be one of: " ++ String.intercalate ", " valid_periods))) ∧
    (obsidian_patch_content filepath operation target_type target content =
      ([ClientCall.patch_content filepath operation target_type target content],
       Except.ok ("Successfully patched content in " ++ filepath))) := by
  refine ⟨?_, ?_, ?_, rfl⟩
  · intro h
    simp [obsidian_get_periodic_note, h]
  · intro hp ht
    simp [obsidian_get_periodic_note, hp, ht]
  · intro h
    simp [obsidian_get_recent_periodic_notes, h]

/-- Claim C2 (amended), instantiated: invalid `period` and `type` values
on concrete inputs, with the full error messages. -/
theorem c2_enum_validation_witness :
    obsidian_get_periodic_note "hourly" "content" "body" =
      ([], Except.error
        "Invalid period: hourly. Must be one of: daily, weekly, monthly, quarterly, yearly") ∧
    obsidian_get_periodic_note "daily" "blob" "body" =
      ([], Except.error "Invalid type: blob. Must be one of: content, metadata") ∧
    obsidian_get_recent_periodic_notes "hourly" (PyVal.int 5) (PyVal.bool false) Json.null =
      ([], Except.error
        "Invalid period: hourly. Must be one of: daily, weekly, monthly, quarterly, yearly") := by
  refine ⟨?_, ?_, ?_⟩
  · exact (c2_enum_validation "hourly" "content" "f" "append" "heading" "t" "c"
      "body" (PyVal.int 5) (PyVal.bool false) Json.null).1 (by decide)
  · exact (c2_enum_validation "daily" "blob" "f" "append" "heading" "t" "c"
      "body" (PyVal.int 5) (PyVal.bool false) Json.null).2.1 (by decide) (by decide)
  · exact (c2_enum_validation "hourly" "content" "f" "append" "heading" "t" "c"
      "body" (PyVal.int 5) (PyVal.bool false) Json.null).2.2.1 (by decide)

/-- Claim C3 counterexample: `obsidian_simple_search` performs no
validation of `context_length` — the invalid value `0` raises no error and
the search call is issued with it. -/
theorem c3_context_length_counterexample :
    obsidian_simple_search "tag" (PyVal.int 0) [] =
      ([ClientCall.search "tag" (PyVal.int 0)], Except.ok "[]") := by
  simp [obsidian_simple_search, formatResultsLoop, jsonDumps, jsonDumpsAux]

/-- Claim C3 (amended): `limit` and `days` are validated as positive
integers (zero, negative or non-integer values raise before any client
call; positive integers pass through unchanged), but `context_length` is
not validated at all: every value, valid or not, is passed through to the
search call and no error is raised. -/
theorem c3_positive_int_validation (period query : String)
    (limit days context_length : PyVal) (b : Bool) (resp resp2 : Json)
    (results : List RawResult) :
    (period ∈ valid_periods → limit.isInstInt = false ∨ limit.toInt < 1 →
      obsidian_get_recent_periodic_notes period limit (PyVal.bool b) resp =
        ([], Except.error ("Invalid limit: " ++ limit.pyStr ++
          ". Must be a positive integer"))) ∧
    (limit.isInstInt = false ∨ limit.toInt < 1 →
      obsidian_get_recent_changes limit days resp2 =
        ([], Except.error ("Invalid limit: " ++ limit.pyStr ++
          ". Must be a positive integer"))) ∧
    (limit.isInstInt = true → 1 ≤ limit.toInt →
      days.isInstInt = false ∨ days.toInt < 1 →
      obsidian_get_recent_changes limit days resp2 =
        ([], Except.error ("Invalid days: " ++ days.pyStr ++
          ". Must be a positive integer"))) ∧
    (period ∈ valid_periods → limit.isInstInt = true → 1 ≤ limit.toInt →
      obsidian_get_recent_periodic_notes period limit (PyVal.bool b) resp =
        ([ClientCall.get_recent_periodic_notes period limit (PyVal.bool b)],
         Except.ok (jsonDumps resp))) ∧
    (limit.isInstInt = true → 1 ≤ limit.toInt →
      days.isInstInt = true → 1 ≤ days.toInt →
      obsidian_get_recent_changes limit days resp2 =
        ([ClientCall.get_recent_changes limit days],
         Except.ok (jsonDumps resp2))) ∧
    (obsidian_simple_search query context_length results =
      ([ClientCall.search query context_length],
       Except.ok (jsonDumps (Json.arr (formatResultsLoop results))))) := by
  refine ⟨?_, ?_, ?_, ?_, ?_, rfl⟩
  · intro hp hl
    simp [obsidian_get_recent_periodic_notes, hp, hl]
  · intro hl
    simp [obsidian_get_recent_changes, hl]
  · intro hi hpos hd
    have hl : ¬(limit.isInstInt = false ∨ limit.toInt < 1) := by
      rw [hi]; simp; omega
    simp [obsidian_get_recent_changes, hl, hd]
  · intro hp hi hpos
    have hl : ¬(limit.isInstInt = false ∨ limit.toInt < 1) := by
      rw [hi]; simp; omega
    simp [obsidian_get_recent_periodic_notes, hp, hl, PyVal.isInstBool]
  · intro hi hpos hdi hdpos
    have hl : ¬(limit.isInstInt = false ∨ limit.toInt < 1) := by
      rw [hi]; simp; omega
    have hd : ¬(days.isInstInt = false ∨ days.toInt < 1) := by
      rw [hdi]; simp; omega
    simp [obsidian_get_recent_changes, hl, hd]

/-- Claim C3 (amended), instantiated: rejected `limit = 0`, non-integer
`limit`, rejected `days = 0`, and an accepted positive `limit` passed
through unchanged. -/
theorem c3_positive_int_validation_witness :
    obsidian_get_recent_changes (PyVal.int 0) (PyVal.int 90) Json.null =
      ([], Except.error "Invalid limit: 0. Must be a positive integer") ∧
    obsidian_get_recent_changes (PyVal.str "ten") (PyVal.int 90) Json.null =
      ([], Except.error "Invalid limit: ten. Must be a positive integer") ∧
    obsidian_get_recent_changes (PyVal.int 10) (PyVal.int 0) Json.null =
      ([], Except.error "Invalid days: 0. Must be a positive integer") ∧
    obsidian_get_recent_periodic_notes "daily" (PyVal.int 5) (PyVal.bool false) Json.null =
      ([ClientCall.get_recent_periodic_notes "daily" (PyVal.int 5) (PyVal.bool false)],
       Except.ok "null") := by
  refine ⟨?_, ?_, ?_, ?_⟩
  · exact (c3_positive_int_validation "daily" "q" (PyVal.int 0) (PyVal.int 90)
      PyVal.none false Json.null Json.null []).2.1 (Or.inr (by decide))
  · exact (c3_positive_int_validation "daily" "q" (PyVal.str "ten") (PyVal.int 90)
      PyVal.none false Json.null Json.null []).2.1 (Or.inl rfl)
  · exact (c3_positive_int_validation "daily" "q" (PyVal.int 10) (PyVal.int 0)
      PyVal.none false Json.null Json.null []).2.2.1 rfl (by decide)
      (Or.inr (by decide))
  · have h := (c3_positive_int_validation "daily" "q" (PyVal.int 5) (PyVal.int 90)
      PyVal.none false Json.null Json.null []).2.2.2.1 (by decide) rfl (by decide)
    rw [h]
    simp [jsonDumps, jsonDumpsAux]

/-- Claim C4 counterexample: `obsidian_get_file_contents` does not return
the content as raw text — it returns `json.dumps(content, indent=2)`, so a
plain string comes back JSON-quoted. -/
theorem c4_get_file_contents_counterexample :
    (obsidian_get_file_contents "note.md" (Json.str "hello")).2 =
      Except.ok "\"hello\"" ∧ ("\"hello\"" : String) ≠ "hello" := by
  refine ⟨?_, by decide⟩
  simp [obsidian_get_file_contents, jsonDumps, jsonDumpsAux, jsonEscape,
    jsonEscapeChar]
  decide

/-- Claim C4 (amended): list/structured tools serialize their result to
indented JSON, and `obsidian_get_file_contents` does so too (rather than
returning raw text); periodic-note content retrieval returns the content
raw; every side-effecting tool returns a short confirmation string naming
the affected filepath. -/
theorem c4_response_normalization (dirpath filepath query note content : String)
    (cl : PyVal) (files filesd contents rc : Json) (results : List RawResult) :
    obsidian_list_files_in_vault files =
      ([ClientCall.list_files_in_vault], Except.ok (jsonDumps files)) ∧
    obsidian_list_files_in_dir dirpath filesd =
      ([ClientCall.list_files_in_dir dirpath], Except.ok (jsonDumps filesd)) ∧
    (obsidian_simple_search query cl results).2 =
      Except.ok (jsonDumps (Json.arr (formatResultsLoop results))) ∧
    obsidian_get_recent_changes (PyVal.int 10) (PyVal.int 90) rc =
      ([ClientCall.get_recent_changes (PyVal.int 10) (PyVal.int 90)],
       Except.ok (jsonDumps rc)) ∧
    obsidian_get_file_contents filepath contents =
      ([ClientCall.get_file_contents filepath], Except.ok (jsonDumps contents)) ∧
    obsidian_get_periodic_note "daily" "content" note =
      ([ClientCall.get_periodic_note "daily" "content"], Except.ok note) ∧
    obsidian_append_content filepath content =
      ([ClientCall.append_content filepath content],
       Except.ok ("Successfully appended content to " ++ filepath)) ∧
    obsidian_put_content filepath content =
      ([ClientCall.put_content filepath content],
       Except.ok ("Successfully uploaded content to " ++ filepath)) ∧
    obsidian_patch_content filepath "append" "heading" "T" content =
      ([ClientCall.patch_content filepath "append" "heading" "T" content],
       Except.ok ("Successfully patched content in " ++ filepath)) ∧
    obsidian_delete_file filepath (PyVal.bool true) =
      ([ClientCall.delete_file filepath],
       Except.ok ("Successfully deleted " ++ filepath)) := by
  refine ⟨rfl, rfl, rfl, ?_, rfl, ?_, rfl, rfl, rfl, ?_⟩
  · simp [obsidian_get_recent_changes, PyVal.isInstInt, PyVal.toInt]
  · simp [obsidian_get_periodic_note, valid_periods, valid_types]
  · simp [obsidian_delete_file, PyVal.truthy]

/-- Claim C6: `obsidian_complex_search` passes the query to the client
verbatim, with no validation or interpretation, and serializes the client's
results unchanged as indented JSON. -/
theorem c6_complex_search_passthrough (query results : Json) :
    obsidian_complex_search query results =
      ([ClientCall.search_json query], Except.ok (jsonDumps results)) := rfl

/-- Claim C7 counterexample: a non-boolean `confirm` does not raise a
validation error — the truthy integer `1` passes the gate and the delete
call is issued. -/
theorem c7_confirm_type_counterexample :
    PyVal.isInstBool (PyVal.int 1) = false ∧
    obsidian_delete_file "note.md" (PyVal.int 1) =
      ([ClientCall.delete_file "note.md"],
       Except.ok "Successfully deleted note.md") := by
  refine ⟨rfl, ?_⟩
  simp [obsidian_delete_file, PyVal.truthy]

/-- Claim C7 (amended): `include_content` is type-checked — a non-boolean
value raises a descriptive error with no client call — but `confirm` is
only tested for truthiness: a truthy non-boolean proceeds to the delete
call, a falsy one raises the confirm-required error. -/
theorem c7_boolean_validation (filepath period : String)
    (limit include_content confirm : PyVal) (resp : Json) :
    (period ∈ valid_periods → limit.isInstInt = true → 1 ≤ limit.toInt →
      include_content.isInstBool = false →
      obsidian_get_recent_periodic_notes period limit include_content resp =
        ([], Except.error ("Invalid include_content: " ++
          include_content.pyStr ++ ". Must be a boolean"))) ∧
    (confirm.truthy = false →
      obsidian_delete_file filepath confirm =
        ([], Except.error "confirm must be set to true to delete a file")) ∧
    (confirm.truthy = true →
      obsidian_delete_file filepath confirm =
        ([ClientCall.delete_file filepath],
         Except.ok ("Successfully deleted " ++ filepath))) := by
  refine ⟨?_, ?_, ?_⟩
  · intro hp hi hpos hb
    have hl : ¬(limit.isInstInt = false ∨ limit.toInt < 1) := by
      rw [hi]; simp; omega
    simp [obsidian_get_recent_periodic_notes, hp, hl, hb]
  · intro h
    simp [obsidian_delete_file, h]
  · intro h
    simp [obsidian_delete_file, h]

/-- Claim C7 (amended), instantiated: a non-boolean `include_content` is
rejected; a falsy `confirm` raises; the truthy non-boolean `"yes"` deletes. -/
theorem c7_boolean_validation_witness :
    obsidian_get_recent_periodic_notes "daily" (PyVal.int 5) (PyVal.int 3) Json.null =
      ([], Except.error "Invalid include_content: 3. Must be a boolean") ∧
    obsidian_delete_file "a.md" PyVal.none =
      ([], Except.error "confirm must be set to true to delete a file") ∧
    obsidian_delete_file "a.md" (PyVal.str "yes") =
      ([ClientCall.delete_file "a.md"], Except.ok "Successfully deleted a.md") := by
  refine ⟨?_, ?_, ?_⟩
  · exact (c7_boolean_validation "a.md" "daily" (PyVal.int 5) (PyVal.int 3)
      PyVal.none Json.null).1 (by decide) rfl (by decide) rfl
  · exact (c7_boolean_validation "a.md" "daily" (PyVal.int 5) (PyVal.int 3)
      PyVal.none Json.null).2.1 rfl
  · exact (c7_boolean_validation "a.md" "daily" (PyVal.int 5) (PyVal.int 3)
      (PyVal.str "yes") Json.null).2.2 rfl

/-- Claim C8: on `[a, b]` where `a` has content and `b` is missing, the
batch read returns one blob holding `a`'s content and an inline error
marker for `b`, and does not raise. -/
theorem c8_batch_partial_failure (vault : String → Option String)
    (a b ca : String) (ha : vault a = some ca) (hb : vault b = Option.none) :
    obsidian_batch_get_file_contents vault [a, b] =
      ([ClientCall.get_batch_file_contents [a, b]],
       Except.ok (a ++ ":\n\n" ++ ca ++ "\n\n---\n\n" ++
         (b ++ ":\n\n" ++ ("Error reading file: " ++ b) ++ "\n\n---\n\n" ++ ""))) := by
  simp [obsidian_batch_get_file_contents, get_batch_file_contents, ha, hb]

/-- Claim C8, instantiated: a two-file batch with one missing file. -/
theorem c8_batch_partial_failure_witness :
    obsidian_batch_get_file_contents
        (fun p => if p = "a.md" then some "alpha" else Option.none)
        ["a.md", "b.md"] =
      ([ClientCall.get_batch_file_contents ["a.md", "b.md"]],
       Except.ok "a.md:\n\nalpha\n\n---\n\nb.md:\n\nError reading file: b.md\n\n---\n\n") := by
  exact c8_batch_partial_failure
    (fun p => if p = "a.md" then some "alpha" else Option.none)
    "a.md" "b.md" "alpha" (by decide) (by decide)

/-- Claim C9: module load raises when `OBSIDIAN_API_KEY` is absent or
empty, and defaults the host to `127.0.0.1` when `OBSIDIAN_HOST` is
absent. -/
theorem c9_startup_config (env : String → Option String) (cwd : String) :
    ((env "OBSIDIAN_API_KEY" = Option.none ∨ env "OBSIDIAN_API_KEY" = some "") →
      serverStartup env cwd =
        Except.error ("OBSIDIAN_API_KEY environment variable required. " ++
          "Working directory: " ++ cwd)) ∧
    (∀ k, env "OBSIDIAN_API_KEY" = some k → k ≠ "" →
      env "OBSIDIAN_HOST" = Option.none →
      serverStartup env cwd =
        Except.ok { api_key := k, obsidian_host := "127.0.0.1" }) := by
  constructor
  · rintro (h | h) <;> simp [serverStartup, h]
  · intro k hk hne hh
    simp [serverStartup, hk, hh, hne]

/-- Claim C9, instantiated: an empty environment fails fatally; an
environment holding only the key starts with the loopback host. -/
theorem c9_startup_config_witness :
    serverStartup (fun _ => Option.none) "/app" =
      Except.error
        "OBSIDIAN_API_KEY environment variable required. Working directory: /app" ∧
    serverStartup
        (fun n => if n = "OBSIDIAN_API_KEY" then some "secret" else Option.none)
        "/app" =
      Except.ok { api_key := "secret", obsidian_host := "127.0.0.1" } := by
  constructor
  · exact (c9_startup_config (fun _ => Option.none) "/app").1 (Or.inl rfl)
  · exact (c9_startup_config
      (fun n => if n = "OBSIDIAN_API_KEY" then some "secret" else Option.none)
      "/app").2 "secret" (by decide) (by decide) (by decide)

/-- Claim C10: the handlers enforce no upper bound on `limit` — every
integer `limit ≥ 1` (also far above the advertised maxima of 50 and 100)
is accepted and passed unchanged to the client call. -/
theorem c10_no_upper_bound (period : String) (n d : Int) (b : Bool)
    (resp resp2 : Json) (hp : period ∈ valid_periods)
    (hn : 1 ≤ n) (hd : 1 ≤ d) :
    obsidian_get_recent_periodic_notes period (PyVal.int n) (PyVal.bool b) resp =
      ([ClientCall.get_recent_periodic_notes period (PyVal.int n) (PyVal.bool b)],
       Except.ok (jsonDumps resp)) ∧
    obsidian_get_recent_changes (PyVal.int n) (PyVal.int d) resp2 =
      ([ClientCall.get_recent_changes (PyVal.int n) (PyVal.int d)],
       Except.ok (jsonDumps resp2)) := by
  have hl : ¬((PyVal.int n).isInstInt = false ∨ (PyVal.int n).toInt < 1) := by
    simp [PyVal.isInstInt, PyVal.toInt]; omega
  have hdd : ¬((PyVal.int d).isInstInt = false ∨ (PyVal.int d).toInt < 1) := by
    simp [PyVal.isInstInt, PyVal.toInt]; omega
  constructor
  · simp [obsidian_get_recent_periodic_notes, hp, hl, PyVal.isInstBool]
  · simp [obsidian_get_recent_changes, hl, hdd]

/-- Claim C10, instantiated: `limit = 1000`, above both advertised maxima,
is accepted by both handlers and passed through. -/
theorem c10_no_upper_bound_witness :
    obsidian_get_recent_periodic_notes "daily" (PyVal.int 1000) (PyVal.bool false)
        Json.null =
      ([ClientCall.get_recent_periodic_notes "daily" (PyVal.int 1000) (PyVal.bool false)],
       Except.ok "null") ∧
    obsidian_get_recent_changes (PyVal.int 1000) (PyVal.int 365) Json.null =
      ([ClientCall.get_recent_changes (PyVal.int 1000) (PyVal.int 365)],
       Except.ok "null") := by
  have h := c10_no_upper_bound "daily" 1000 365 false Json.null Json.null
    (by decide) (by decide) (by decide)
  constructor
  · rw [h.1]
    simp [jsonDumps, jsonDumpsAux]
  · rw [h.2]
    simp [jsonDumps, jsonDumpsAux]

end McpObsidian
